import Mathlib

set_option maxRecDepth 100000

/-!
Verification development for the two cloud functions of this repository:
the metadata Extractor (terraform/cloud-functions/metadata-generator/main.py)
and the datastore Refresher (terraform/cloud-functions/datastore-refresher/main.py).
Each Python function is shallowly embedded as a Lean definition; external
services (Firestore, Pub/Sub, Vertex AI, Cloud Storage, Discovery Engine)
are modelled by explicit state and oracle inputs.
-/

/-! ## String helpers modelling Python standard-library calls

All operations work on the character list of the string through structural
recursion, so that the kernel can evaluate them inside decide and rfl
proofs (the built-in String loops do not reduce in the kernel). -/

/-- Model of Python str.startswith. -/
def pyStartsWith (s p : String) : Bool :=
  p.data.isPrefixOf s.data

/-- Model of Python str.endswith. -/
def pyEndsWith (s suf : String) : Bool :=
  suf.data.isSuffixOf s.data

/-- ASCII lowering of one character, as Python str.lower does on the ASCII
range (the paths and labels of this repository are ASCII). -/
def pyLowerChar (c : Char) : Char :=
  if 65 ≤ c.toNat ∧ c.toNat ≤ 90 then Char.ofNat (c.toNat + 32) else c

/-- Model of Python str.lower on ASCII text. -/
def pyLower (s : String) : String :=
  ⟨s.data.map pyLowerChar⟩

/-- The ASCII whitespace characters Python str.strip removes. -/
def pySpaceChar (c : Char) : Bool :=
  c == ' ' || c == '\t' || c == '\n' || c == '\r' || c.toNat == 11 || c.toNat == 12

/-- Model of Python str.strip with no argument. -/
def pyStrip (s : String) : String :=
  ⟨((s.data.dropWhile pySpaceChar).reverse.dropWhile pySpaceChar).reverse⟩

/-- Split a character list on a separator character. -/
def splitOnChar (sep : Char) : List Char → List (List Char)
  | [] => [[]]
  | c :: cs =>
    let r := splitOnChar sep cs
    if c = sep then [] :: r
    else
      match r with
      | [] => [[c]]
      | h :: t => (c :: h) :: t

/-- Model of Python os.path.basename: the segment after the last slash. -/
def basename (p : String) : String :=
  ⟨(splitOnChar '/' p.data).getLastD []⟩

/-- Model of Python str.lstrip with argument a slash: drop leading slashes. -/
def lstripSlash (s : String) : String :=
  ⟨s.data.dropWhile (fun c => c = '/')⟩

/-- Model of urllib.parse.urlparse restricted to what the Refresher reads
from it (netloc and path) on URLs of the scheme://netloc/path form without
query or fragment parts; a string without a scheme separator parses as a
bare path with empty netloc. -/
def urlparse_netloc_path (url : String) : String × String :=
  let scheme := url.data.takeWhile (fun c => c ≠ ':')
  match url.data.drop scheme.length with
  | (':' :: '/' :: '/' :: r) =>
    let netloc := r.takeWhile (fun c => c ≠ '/')
    (⟨netloc⟩, ⟨r.drop netloc.length⟩)
  | _ => ("", url)

/-- Model of Python str.replace with a one-character pattern, used for
replacing each slash by a dash in date fields. -/
def replaceSlashDash (s : String) : String :=
  ⟨s.data.map (fun c => if c = '/' then '-' else c)⟩

/-- Model of Python str.encode with utf-8: standard UTF-8 bytes of a string. -/
def utf8Char (c : Char) : List Nat :=
  let n := c.toNat
  if n < 128 then [n]
  else if n < 2048 then [192 ||| (n >>> 6), 128 ||| (n &&& 63)]
  else if n < 65536 then
    [224 ||| (n >>> 12), 128 ||| ((n >>> 6) &&& 63), 128 ||| (n &&& 63)]
  else
    [240 ||| (n >>> 18), 128 ||| ((n >>> 12) &&& 63),
     128 ||| ((n >>> 6) &&& 63), 128 ||| (n &&& 63)]

/-- UTF-8 encoding of a whole string, as a list of byte values. -/
def utf8Encode (s : String) : List Nat :=
  (s.data.map utf8Char).flatten

/-! ## MD5, modelling hashlib.md5(...).hexdigest()

The Refresher derives its document identifier with hashlib.md5 over the
UTF-8 bytes of the file path and takes the lowercase hex digest.  The
algorithm below is the standard MD5 (RFC 1321) over `Nat` with explicit
reduction modulo 2^32. -/

/-- Truncate to a 32-bit word. -/
def w32 (x : Nat) : Nat := x % 4294967296

/-- Rotate a 32-bit word left by n bits (0 < n < 32 where used). -/
def rotl32 (x n : Nat) : Nat := w32 (x <<< n) ||| (x >>> (32 - n))

/-- The 64 per-round shift amounts of MD5. -/
def md5S : List Nat :=
  [7, 12, 17, 22, 7, 12, 17, 22, 7, 12, 17, 22, 7, 12, 17, 22,
   5, 9, 14, 20, 5, 9, 14, 20, 5, 9, 14, 20, 5, 9, 14, 20,
   4, 11, 16, 23, 4, 11, 16, 23, 4, 11, 16, 23, 4, 11, 16, 23,
   6, 10, 15, 21, 6, 10, 15, 21, 6, 10, 15, 21, 6, 10, 15, 21]

/-- The 64 sine-derived constants of MD5. -/
def md5K : List Nat :=
  [0xd76aa478, 0xe8c7b756, 0x242070db, 0xc1bdceee,
   0xf57c0faf, 0x4787c62a, 0xa8304613, 0xfd469501,
   0x698098d8, 0x8b44f7af, 0xffff5bb1, 0x895cd7be,
   0x6b901122, 0xfd987193, 0xa679438e, 0x49b40821,
   0xf61e2562, 0xc040b340, 0x265e5a51, 0xe9b6c7aa,
   0xd62f105d, 0x02441453, 0xd8a1e681, 0xe7d3fbc8,
   0x21e1cde6, 0xc33707d6, 0xf4d50d87, 0x455a14ed,
   0xa9e3e905, 0xfcefa3f8, 0x676f02d9, 0x8d2a4c8a,
   0xfffa3942, 0x8771f681, 0x6d9d6122, 0xfde5380c,
   0xa4beea44, 0x4bdecfa9, 0xf6bb4b60, 0xbebfbc70,
   0x289b7ec6, 0xeaa127fa, 0xd4ef3085, 0x04881d05,
   0xd9d4d039, 0xe6db99e5, 0x1fa27cf8, 0xc4ac5665,
   0xf4292244, 0x432aff97, 0xab9423a7, 0xfc93a039,
   0x655b59c3, 0x8f0ccc92, 0xffeff47d, 0x85845dd1,
   0x6fa87e4f, 0xfe2ce6e0, 0xa3014314, 0x4e0811a1,
   0xf7537e82, 0xbd3af235, 0x2ad7d2bb, 0xeb86d391]

/-- Running MD5 state: four 32-bit words. -/
structure MD5State where
  a : Nat
  b : Nat
  c : Nat
  d : Nat
deriving DecidableEq, Repr

/-- Round mixing function and message-word index of MD5 round i. -/
def md5F (s : MD5State) (i : Nat) : Nat × Nat :=
  if i < 16 then ((s.b &&& s.c) ||| ((4294967295 ^^^ s.b) &&& s.d), i)
  else if i < 32 then ((s.d &&& s.b) ||| ((4294967295 ^^^ s.d) &&& s.c), (5 * i + 1) % 16)
  else if i < 48 then (s.b ^^^ s.c ^^^ s.d, (3 * i + 5) % 16)
  else (s.c ^^^ (s.b ||| (4294967295 ^^^ s.d)), (7 * i) % 16)

/-- Little-endian 32-bit word number j of a 64-byte chunk. -/
def leWord (chunk : List Nat) (j : Nat) : Nat :=
  chunk.getD (4 * j) 0 + 256 * chunk.getD (4 * j + 1) 0 +
    65536 * chunk.getD (4 * j + 2) 0 + 16777216 * chunk.getD (4 * j + 3) 0

/-- One MD5 round: rotate the state and mix in one message word. -/
def md5Round (M : List Nat) (s : MD5State) (i : Nat) : MD5State :=
  let fg := md5F s i
  let f2 := w32 (fg.1 + s.a + md5K.getD i 0 + M.getD fg.2 0)
  { a := s.d, d := s.c, c := s.b, b := w32 (s.b + rotl32 f2 (md5S.getD i 0)) }

/-- Process one 64-byte chunk: 64 rounds, then add into the incoming state. -/
def md5Chunk (s0 : MD5State) (chunk : List Nat) : MD5State :=
  let M := (List.range 16).map (leWord chunk)
  let s := (List.range 64).foldl (md5Round M) s0
  ⟨w32 (s0.a + s.a), w32 (s0.b + s.b), w32 (s0.c + s.c), w32 (s0.d + s.d)⟩

/-- MD5 padding: a 0x80 byte, zeros to 56 mod 64, then the 64-bit
little-endian bit length. -/
def md5Pad (msg : List Nat) : List Nat :=
  msg ++ [128] ++ List.replicate ((120 - (msg.length + 1) % 64) % 64) 0 ++
    (List.range 8).map (fun i => ((8 * msg.length) >>> (8 * i)) % 256)

/-- Split a byte list into chunks of 64; structural recursion on a fuel
bound by the length, so that the kernel can evaluate it. -/
def toChunksAux : Nat → List Nat → List (List Nat)
  | 0, _ => []
  | _, [] => []
  | n + 1, l => l.take 64 :: toChunksAux n (l.drop 64)

/-- Split a byte list into chunks of 64. -/
def toChunks (l : List Nat) : List (List Nat) := toChunksAux l.length l

/-- Four little-endian bytes of a 32-bit word. -/
def wordLE (x : Nat) : List Nat := [x % 256, (x >>> 8) % 256, (x >>> 16) % 256, (x >>> 24) % 256]

/-- The 16-byte MD5 digest of a byte list. -/
def md5Digest (msg : List Nat) : List Nat :=
  let s := (toChunks (md5Pad msg)).foldl md5Chunk
    ⟨1732584193, 4023233417, 2562383102, 271733878⟩
  wordLE s.a ++ wordLE s.b ++ wordLE s.c ++ wordLE s.d

/-- Lowercase hex digit for a value below 16. -/
def hexDigit (n : Nat) : Char :=
  if n < 10 then Char.ofNat (48 + n) else Char.ofNat (87 + n)

/-- Two lowercase hex characters of one byte. -/
def byteToHex (b : Nat) : String :=
  String.mk [hexDigit (b / 16 % 16), hexDigit (b % 16)]

/-- Lowercase hex string of a byte list. -/
def bytesToHex : List Nat → String
  | [] => ""
  | b :: bs => byteToHex b ++ bytesToHex bs

/-- Model of hashlib.md5(bytes).hexdigest(). -/
def md5Hex (msg : List Nat) : String := bytesToHex (md5Digest msg)

/-- Model of the Refresher lines 173 to 175: the document identifier is the
MD5 hex digest of the UTF-8 encoding of the file path. -/
def refresher_file_hash (file_path : String) : String :=
  md5Hex (utf8Encode file_path)

/-! ## Datastore Refresher (datastore-refresher/main.py)

The inbound Pub/Sub payload, after base64 decoding and JSON parsing, is a
JSON object read with data.get(key, default).  Absent keys are modelled by
`Option`; the rent field, which the JSON may carry as a number or a string,
is modelled by a small JSON-value type. -/

/-- A JSON scalar as it can appear in the rent field. -/
inductive JVal where
  | str (s : String)
  | num (n : Int)
deriving DecidableEq, Repr

/-- The decoded Pub/Sub message body read by generate_jsonl_from_message
(lines 110 to 118): each field is absent or present. -/
structure LeaseMsg where
  city : Option String
  street : Option String
  province : Option String
  postalcode : Option String
  lease_start_date : Option String
  lease_end_date : Option String
  rent : Option JVal
  file_path : Option String
  document_language : Option String
deriving DecidableEq, Repr

/-- The structData block of the staged JSONL object (lines 136 to 147). -/
structure StructData where
  title : String
  city : String
  street : String
  province : String
  postalcode : String
  lease_start_date : String
  lease_end_date : String
  rent : JVal
  document_language : String
  url : String
deriving DecidableEq, Repr

/-- The staged JSONL object (lines 133 to 148). -/
structure JsonlObject where
  id : String
  content_mimeType : String
  content_uri : String
  structData : StructData
deriving DecidableEq, Repr

/-- Model of generate_jsonl_from_message (lines 93 to 154) on an already
decoded message.  The surrounding try/except of the source returns None only
when decoding raises or a field has an unexpected runtime type; both are
outside this typed message model, so the function is total here. -/
def generate_jsonl_from_message (data : LeaseMsg) (file_hash : String) : JsonlObject :=
  let city := data.city.getD ""
  let street := data.street.getD ""
  let province := data.province.getD ""
  let postal_code := data.postalcode.getD ""
  let lease_start0 := replaceSlashDash (data.lease_start_date.getD "")
  let lease_end0 := replaceSlashDash (data.lease_end_date.getD "")
  let rent0 := data.rent.getD (JVal.str "")
  let file_path := data.file_path.getD ""
  let document_language := data.document_language.getD ""
  let lease_start_date :=
    if pyStrip lease_start0 = "Not Available" ∨ pyStrip lease_start0 = "" then "1900-01-01"
    else lease_start0
  let lease_end_date :=
    if pyStrip lease_end0 = "Not Available" ∨ pyStrip lease_end0 = "" then "1900-01-01"
    else lease_end0
  let rent :=
    if rent0 = JVal.str "Not Available" ∨ rent0 = JVal.str "" then JVal.num (-1)
    else rent0
  let file_name := basename (urlparse_netloc_path file_path).2
  let bucket_name := (urlparse_netloc_path file_path).1
  let object_path := lstripSlash (urlparse_netloc_path file_path).2
  let https_url := "https://storage.cloud.google.com/" ++ bucket_name ++ "/" ++ object_path
  { id := file_hash,
    content_mimeType := "application/pdf",
    content_uri := file_path,
    structData :=
      { title := file_name, city := city, street := street, province := province,
        postalcode := postal_code, lease_start_date := lease_start_date,
        lease_end_date := lease_end_date, rent := rent,
        document_language := document_language, url := https_url } }

/-- Oracle for the Refresher external calls: whether the storage upload
raises, whether the index-import client raises, and the error samples the
finished index-import operation reports. -/
structure RefresherWorld where
  upload_error : Option String
  discovery_raise : Option String
  discovery_error_samples : Option String

/-- Model of import_documents_to_discovery_engine (lines 48 to 90): the
whole body is inside try/except, so the function always returns a status
string and never raises. -/
def import_documents_to_discovery_engine (w : RefresherWorld) (gcs_uri : String) : String :=
  match w.discovery_raise with
  | some e => "Error importing documents: " ++ e
  | none =>
    match w.discovery_error_samples with
    | some samples => "Operation failed with errors: " ++ samples
    | none => gcs_uri ++ ": Imported successfully!"

/-- The Refresher inbound event as the handler sees it: the data key is
absent, or its base64/JSON decoding raises, or it decodes to a message. -/
inductive RefrEvent where
  | noData
  | badPayload (err : String)
  | payload (msg : LeaseMsg)

/-- Observable effects of one Refresher invocation. -/
structure RefrEffects where
  uploads : List (String × JsonlObject)
  index_requests : List String
deriving DecidableEq, Repr

/-- The body of refresh_datastore_document inside its try block
(lines 167 to 204); an `error` value is a raised exception reaching the
handler's except clause. -/
def refresher_body (w : RefresherWorld) (metadata_bucket : String) (event : RefrEvent) :
    Except String RefrEffects :=
  match event with
  | .noData => .ok ⟨[], []⟩
  | .badPayload err => .error err
  | .payload msg =>
    let file_path := msg.file_path.getD ""
    let file_hash := refresher_file_hash file_path
    let jsonl_object := generate_jsonl_from_message msg file_hash
    let blob_name := "jsonl-metadata/" ++ file_hash ++ ".jsonl"
    match w.upload_error with
    | some e => .error e
    | none =>
      let gs_path := "gs://" ++ metadata_bucket ++ "/" ++ blob_name
      let _import_status := import_documents_to_discovery_engine w gs_path
      .ok ⟨[(blob_name, jsonl_object)], [gs_path]⟩

/-- Model of refresh_datastore_document (lines 157 to 207): the try body,
with every raise caught by the except clause at lines 206 to 207 (`none`
marks an invocation that ended through the except clause). -/
def refresh_datastore_document (w : RefresherWorld) (metadata_bucket : String)
    (event : RefrEvent) : Except String (Option RefrEffects) :=
  match refresher_body w metadata_bucket event with
  | .ok eff => .ok (some eff)
  | .error _ => .ok none

/-! ## Metadata Extractor (metadata-generator/main.py)

The handler process_pubsub_message is embedded over an explicit Firestore
collection state (a list of documents), an oracle for the external calls,
and the decoded inbound Pub/Sub event.  An `Except.error` result models an
exception propagating out of the handler to its trigger. -/

/-- The Pydantic response schema LeaseMetadata (lines 55 to 65). -/
structure LeaseMetadata where
  city : String
  street : String
  province : String
  postalcode : String
  lease_start_date : String
  lease_end_date : String
  rent : Int
  document_language : String
deriving DecidableEq, Repr

/-- The metadata dictionary as written to Firestore and published
(the parsed model output plus file_path and the two timestamps). -/
structure StoredRecord where
  meta : LeaseMetadata
  file_path : String
  create_datetime : String
  update_datetime : String
deriving DecidableEq, Repr

/-- One Firestore document: its identifier and its record. -/
structure FsDoc where
  id : String
  record : StoredRecord
deriving DecidableEq, Repr

/-- Instrumented result of clean_up_firestore_collection: the remaining
collection, the total number of deleted documents, and the number of
passes (calls) performed. -/
structure CleanResult where
  remaining : List FsDoc
  deleted : Nat
  passes : Nat
deriving DecidableEq, Repr

/-- Model of clean_up_firestore_collection (lines 76 to 91): stream at most
batch_size documents, delete each streamed document, and recurse exactly
when the pass deleted at least batch_size documents.  The positivity
hypothesis on the batch size (the source is only called with the default
100) is what makes the recursion terminating. -/
def clean_up_firestore_collection (coll : List FsDoc) (batch_size : Nat)
    (hbs : 0 < batch_size) : CleanResult :=
  if hrec : batch_size ≤ (coll.take batch_size).length then
    let r := clean_up_firestore_collection (coll.drop batch_size) batch_size hbs
    ⟨r.remaining, (coll.take batch_size).length + r.deleted, 1 + r.passes⟩
  else
    ⟨coll.drop batch_size, (coll.take batch_size).length, 1⟩
termination_by coll.length
decreasing_by
  simp only [List.length_take, List.length_drop] at *
  omega

/-- Configuration of the Extractor read from the environment: the target
path filter (TARGET_PATH_PREFIX with its appended slash, line 42) and the
overwrite flag (OVERWRITE_EXISTING_METADATA, line 46). -/
structure ExtractorConfig where
  target_path_pfx : String
  overwrite_existing_metadata : Bool
deriving DecidableEq, Repr

/-- The event context as read by lines 105 to 110: its event_type attribute
and the labels entry of its resource dictionary (`none` when the resource
has no labels key, in which case the subscript raises KeyError). -/
structure EventContext where
  event_type : String
  resource_labels : Option (List (String × String))
deriving DecidableEq, Repr

/-- Model of the clear_firestore condition (lines 104 to 110), evaluated
outside the try block: the conjunction short-circuits on event_type, and a
missing labels key in the resource raises KeyError. -/
def clear_check (ctx : Option EventContext) : Except String Bool :=
  match ctx with
  | none => .ok false
  | some c =>
    if c.event_type = "google.cloud.functions.v2.Function.BEFORE_EXEC" then
      match c.resource_labels with
      | none => .error "KeyError: labels"
      | some labels =>
        match labels.lookup "clear_firestore" with
        | some v => .ok (pyLower v = "true")
        | none => .ok false
    else .ok false

/-- The inbound event as the Extractor sees it after line 121: the base64
or UTF-8 decoding raises, or the text is not JSON (line 125), or it is a
JSON object whose name and bucket entries may be absent. -/
inductive EventMsg where
  | undecodable (err : String)
  | nonJson (raw : String)
  | jsonMsg (name : Option String) (bucket : Option String)
deriving Repr

/-- Oracle for the Extractor external calls: the JSON parse of the model
response text (an error is a json.JSONDecodeError at line 172), whether the
Firestore set and the Pub/Sub publish raise, whether the clear path raises,
and the automatic identifier Firestore assigns at line 196. -/
structure ExtractorWorld where
  ai_response : Except String LeaseMetadata
  set_error : Option String
  publish_error : Option String
  clear_error : Option String
  fresh_doc_id : String

/-- Observable effects of one Extractor invocation. -/
structure ExtractorEffects where
  ai_calls : Nat
  db_writes : List FsDoc
  published : List StoredRecord
  db_after : List FsDoc
deriving DecidableEq, Repr

/-- No effect performed yet: the collection is unchanged. -/
def noEffects (db : List FsDoc) : ExtractorEffects := ⟨0, [], [], db⟩

/-- The body of the try block of process_pubsub_message (lines 119 to 212).
The Python early returns on the negated filter conditions are rendered as
positive conditionals with the early return in the else branch.  An
`Except.error` first component is an exception that line 214 will catch. -/
def extractor_try_body (cfg : ExtractorConfig) (db : List FsDoc) (w : ExtractorWorld)
    (event : EventMsg) (now : String) : Except String (Option String) × ExtractorEffects :=
  match event with
  | .undecodable err => (.error err, noEffects db)
  | .nonJson _ => (.ok (some "Non-JSON message skipped"), noEffects db)
  | .jsonMsg name bucket =>
    if name.getD "" = "" ∨ bucket.getD "" = "" then
      (.ok (some "Missing file path or bucket name in message"), noEffects db)
    else
      let file_path := name.getD ""
      let bucket_name := bucket.getD ""
      if pyStartsWith file_path cfg.target_path_pfx then
        if pyEndsWith (pyLower file_path) ".pdf" then
          let pdf_file_uri := "gs://" ++ bucket_name ++ "/" ++ file_path
          -- lines 151 to 166: client setup and the generate_content call
          match w.ai_response with
          | .error e =>
            (.ok (some ("Error decoding JSON: " ++ e ++ ".")), { noEffects db with ai_calls := 1 })
          | .ok meta =>
            -- lines 182 to 184: first document whose file_path equals the URI
            let existing_doc := (db.filter (fun d => d.record.file_path == pdf_file_uri)).head?
            match existing_doc, cfg.overwrite_existing_metadata with
            | some d0, false =>
              (.ok (some ("Skipping existing document: " ++ d0.id)),
               { noEffects db with ai_calls := 1 })
            | _, _ =>
              -- lines 194 to 197: both timestamps set to now, then a write
              -- through a document reference with a fresh automatic id
              let record : StoredRecord :=
                { meta := meta, file_path := pdf_file_uri,
                  create_datetime := now, update_datetime := now }
              match w.set_error with
              | some e => (.error e, { noEffects db with ai_calls := 1 })
              | none =>
                let newDoc : FsDoc := ⟨w.fresh_doc_id, record⟩
                match w.publish_error with
                | some e => (.error e, ⟨1, [newDoc], [], db ++ [newDoc]⟩)
                | none =>
                  (.ok (some "PDF processed successfully."), ⟨1, [newDoc], [record], db ++ [newDoc]⟩)
        else (.ok (some "Not a PDF file"), noEffects db)
      else (.ok none, noEffects db)

/-- Model of process_pubsub_message (lines 94 to 216).  The clear check and
the clear path (lines 103 to 117) run before and outside the try block, so
an exception there propagates; inside the try block every exception is
caught by line 214 and converted to a returned failure string. -/
def process_pubsub_message (cfg : ExtractorConfig) (db : List FsDoc) (w : ExtractorWorld)
    (event : EventMsg) (context : Option EventContext) (now : String) :
    Except String (Option String × ExtractorEffects) :=
  match clear_check context with
  | .error e => .error e
  | .ok true =>
    match w.clear_error with
    | some e => .error e
    | none =>
      let r := clean_up_firestore_collection db 100 (by omega)
      .ok (some "Firestore Collection Cleared", ⟨0, [], [], r.remaining⟩)
  | .ok false =>
    match extractor_try_body cfg db w event now with
    | (.ok s, eff) => .ok (s, eff)
    | (.error e, eff) => .ok (some ("Error processing PDF: " ++ e ++ "."), eff)

/-- The returned outcome of an invocation that did not raise. -/
def outcome_of : Except String (Option String × ExtractorEffects) → Option String
  | .ok (s, _) => s
  | .error _ => none

/-- The effects of an invocation; a raising invocation is charged no
effects beyond those already recorded in its error continuation, so the
default is used only as a placeholder for raised results. -/
def effects_of (db : List FsDoc) : Except String (Option String × ExtractorEffects) → ExtractorEffects
  | .ok (_, e) => e
  | .error _ => noEffects db

/-! ## Concrete sample inputs used by closed theorems and witnesses -/

/-- A sample parsed model response. -/
def sampleMeta : LeaseMetadata :=
  ⟨"Toronto", "1 Main St", "ON", "A1A 1A1", "2024-01-01", "2025-01-01", 2500, "English"⟩

/-- A sample stored record for the path gs://bkt/lease-sample/a.pdf. -/
def sampleRecord : StoredRecord :=
  ⟨sampleMeta, "gs://bkt/lease-sample/a.pdf", "2024-01-01 00:00:00", "2024-01-01 00:00:00"⟩

/-- A sample pre-existing Firestore document for that path. -/
def sampleDoc : FsDoc := ⟨"doc-1", sampleRecord⟩

/-- An oracle in which every external call succeeds and the automatic
document identifier is doc-2. -/
def sampleWorldOk : ExtractorWorld := ⟨.ok sampleMeta, none, none, none, "doc-2"⟩

/-- Configuration with the overwrite flag enabled. -/
def overwriteCfg : ExtractorConfig := ⟨"lease-sample/", true⟩

/-- Configuration with the overwrite flag disabled. -/
def noOverwriteCfg : ExtractorConfig := ⟨"lease-sample/", false⟩

/-- A qualifying storage event for the sample path. -/
def sampleEvent : EventMsg := .jsonMsg (some "lease-sample/a.pdf") (some "bkt")

/-- A context whose event type triggers the clear condition but whose
resource dictionary has no labels key. -/
def badClearContext : EventContext :=
  ⟨"google.cloud.functions.v2.Function.BEFORE_EXEC", none⟩

/-- A Refresher message carrying the file path of claim C7. -/
def c7Msg : LeaseMsg :=
  ⟨some "Test City", some "123 Main St", some "ON", some "A1B 2C3",
   some "2024-01-01", some "2025-01-01", some (JVal.num 2500),
   some "gs://bucket-x/folder/doc.pdf", some "English"⟩

/-- A Refresher message with placeholder dates and rent. -/
def placeholderMsg : LeaseMsg :=
  ⟨some "Test City", some "123 Main St", some "ON", some "A1B 2C3",
   some "", some "Not Available", some (JVal.str ""),
   some "gs://bucket-x/folder/doc.pdf", some "English"⟩

/-- A positivity proof for the default batch size of the bulk clear. -/
def batch_pos_100 : (0 : Nat) < 100 := by omega

/-! ## Supporting lemmas -/

/-- A hex-encoded byte is two characters long. -/
theorem byteToHex_length (b : Nat) : (byteToHex b).length = 2 := rfl

/-- The hex encoding of a byte list is twice as long as the list. -/
theorem bytesToHex_length (l : List Nat) : (bytesToHex l).length = 2 * l.length := by
  induction l with
  | nil => rfl
  | cons b bs ih =>
    simp only [bytesToHex, String.length_append, byteToHex_length, ih, List.length_cons]
    omega

/-- The MD5 digest is sixteen bytes long. -/
theorem md5Digest_length (m : List Nat) : (md5Digest m).length = 16 := by
  simp [md5Digest, wordLE]

/-- The MD5 hex digest is thirty-two characters long. -/
theorem md5Hex_length (m : List Nat) : (md5Hex m).length = 32 := by
  simp [md5Hex, bytesToHex_length, md5Digest_length]

/-- Sanity check of the MD5 embedding against the RFC 1321 test vector for
the empty message. -/
theorem md5_vector_empty : md5Hex (utf8Encode "") = "d41d8cd98f00b204e9800998ecf8427e" := by
  decide

/-- Sanity check of the MD5 embedding against the RFC 1321 test vector for
the three-byte message abc. -/
theorem md5_vector_abc : md5Hex (utf8Encode "abc") = "900150983cd24fb0d6963f7d28e17f72" := by
  decide

/-! ## Claim theorems -/

/-- C5: for every file path the Refresher identifier is a pure deterministic
function of the path (equal inputs give equal output) and is a fixed-length
thirty-two character hex digest. -/
theorem refresher_hash_deterministic (p q : String) (h : p = q) :
    refresher_file_hash p = refresher_file_hash q ∧
    (refresher_file_hash p).length = 32 := by
  subst h
  exact ⟨rfl, md5Hex_length (utf8Encode p)⟩

/-- Witness for C5 at a concrete file path. -/
theorem refresher_hash_deterministic_witness :
    refresher_file_hash "gs://bucket-x/folder/doc.pdf" =
      refresher_file_hash "gs://bucket-x/folder/doc.pdf" ∧
    (refresher_file_hash "gs://bucket-x/folder/doc.pdf").length = 32 :=
  refresher_hash_deterministic "gs://bucket-x/folder/doc.pdf" "gs://bucket-x/folder/doc.pdf" rfl

/-- C7: for a message with file_path gs://bucket-x/folder/doc.pdf, the
normalized record derives the HTTPS browsing URL and the file name title. -/
theorem refresher_url_and_title :
    (generate_jsonl_from_message c7Msg "h").structData.url =
      "https://storage.cloud.google.com/bucket-x/folder/doc.pdf" ∧
    (generate_jsonl_from_message c7Msg "h").structData.title = "doc.pdf" := by
  decide

/-- C6: a record whose lease start date is empty or the Not Available
placeholder is normalized to the sentinel date 1900-01-01, likewise for the
lease end date; a placeholder rent is normalized to -1 and a rent of 2500 is
kept as 2500. -/
theorem refresher_normalizes_placeholder_fields (m1 m2 : LeaseMsg) (hash1 hash2 : String)
    (h1 : m1.lease_start_date = some "" ∨ m1.lease_start_date = some "Not Available")
    (h2 : m1.lease_end_date = some "" ∨ m1.lease_end_date = some "Not Available")
    (h3 : m1.rent = some (JVal.str "") ∨ m1.rent = some (JVal.str "Not Available"))
    (h4 : m2.rent = some (JVal.num 2500)) :
    (generate_jsonl_from_message m1 hash1).structData.lease_start_date = "1900-01-01" ∧
    (generate_jsonl_from_message m1 hash1).structData.lease_end_date = "1900-01-01" ∧
    (generate_jsonl_from_message m1 hash1).structData.rent = JVal.num (-1) ∧
    (generate_jsonl_from_message m2 hash2).structData.rent = JVal.num 2500 := by
  refine ⟨?_, ?_, ?_, ?_⟩
  · rcases h1 with h | h <;> · simp only [generate_jsonl_from_message, h]; decide
  · rcases h2 with h | h <;> · simp only [generate_jsonl_from_message, h]; decide
  · rcases h3 with h | h <;> · simp only [generate_jsonl_from_message, h]; decide
  · simp only [generate_jsonl_from_message, h4]; decide

/-- Witness for C6 at concrete messages. -/
theorem refresher_normalizes_placeholder_fields_witness :
    (generate_jsonl_from_message placeholderMsg "h1").structData.lease_start_date = "1900-01-01" ∧
    (generate_jsonl_from_message placeholderMsg "h1").structData.lease_end_date = "1900-01-01" ∧
    (generate_jsonl_from_message placeholderMsg "h1").structData.rent = JVal.num (-1) ∧
    (generate_jsonl_from_message c7Msg "h2").structData.rent = JVal.num 2500 :=
  refresher_normalizes_placeholder_fields placeholderMsg c7Msg "h1" "h2"
    (Or.inl rfl) (Or.inr rfl) (Or.inl rfl) rfl

/-- C2: evaluation of the code at the failing input.  With the overwrite
flag enabled and an existing document doc-1 for the path, the handler
reports success and publishes the full record, but instead of updating
doc-1 it writes a second document under the fresh automatic identifier
doc-2: the collection ends with two documents for the same file path and
doc-1 is unchanged. -/
theorem extractor_overwrite_inserts_duplicate :
    outcome_of (process_pubsub_message overwriteCfg [sampleDoc] sampleWorldOk sampleEvent
        none "2025-06-01 00:00:00") = some "PDF processed successfully." ∧
    (effects_of [sampleDoc] (process_pubsub_message overwriteCfg [sampleDoc] sampleWorldOk
        sampleEvent none "2025-06-01 00:00:00")).db_writes =
      [⟨"doc-2", ⟨sampleMeta, "gs://bkt/lease-sample/a.pdf",
        "2025-06-01 00:00:00", "2025-06-01 00:00:00"⟩⟩] ∧
    ((effects_of [sampleDoc] (process_pubsub_message overwriteCfg [sampleDoc] sampleWorldOk
        sampleEvent none "2025-06-01 00:00:00")).db_after.filter
      (fun d => d.record.file_path == "gs://bkt/lease-sample/a.pdf")).length = 2 ∧
    (effects_of [sampleDoc] (process_pubsub_message overwriteCfg [sampleDoc] sampleWorldOk
        sampleEvent none "2025-06-01 00:00:00")).db_after.head? = some sampleDoc ∧
    (effects_of [sampleDoc] (process_pubsub_message overwriteCfg [sampleDoc] sampleWorldOk
        sampleEvent none "2025-06-01 00:00:00")).published =
      [⟨sampleMeta, "gs://bkt/lease-sample/a.pdf",
        "2025-06-01 00:00:00", "2025-06-01 00:00:00"⟩] := by
  decide

/-- C1: for every qualifying storage event whose path already has a matching
record, with the overwrite flag disabled, the Extractor performs no database
write and no channel publish, leaves the collection unchanged, and (when the
extraction response parses) returns the skip status naming the existing
document identifier. -/
theorem extractor_skip_existing_no_write (cfg : ExtractorConfig) (db : List FsDoc)
    (w : ExtractorWorld) (name bucket : String) (ctx : Option EventContext)
    (now : String) (d0 : FsDoc)
    (hctx : clear_check ctx = Except.ok false)
    (hname : name ≠ "") (hbucket : bucket ≠ "")
    (hpre : pyStartsWith name cfg.target_path_pfx = true)
    (hpdf : pyEndsWith (pyLower name) ".pdf" = true)
    (hover : cfg.overwrite_existing_metadata = false)
    (hex : (db.filter
      (fun d => d.record.file_path == "gs://" ++ bucket ++ "/" ++ name)).head? = some d0) :
    (effects_of db (process_pubsub_message cfg db w (.jsonMsg (some name) (some bucket))
        ctx now)).db_writes = [] ∧
    (effects_of db (process_pubsub_message cfg db w (.jsonMsg (some name) (some bucket))
        ctx now)).published = [] ∧
    (effects_of db (process_pubsub_message cfg db w (.jsonMsg (some name) (some bucket))
        ctx now)).db_after = db ∧
    (∀ m, w.ai_response = Except.ok m →
      outcome_of (process_pubsub_message cfg db w (.jsonMsg (some name) (some bucket))
        ctx now) = some ("Skipping existing document: " ++ d0.id)) := by
  cases hai : w.ai_response with
  | error e =>
    simp [process_pubsub_message, hctx, extractor_try_body, hname, hbucket, hpre, hpdf,
      hai, effects_of, outcome_of, noEffects]
  | ok m0 =>
    simp [process_pubsub_message, hctx, extractor_try_body, hname, hbucket, hpre, hpdf,
      hai, hex, hover, effects_of, outcome_of, noEffects]

/-- Witness for C1: a concrete qualifying event, an existing document, and
the overwrite flag disabled. -/
theorem extractor_skip_existing_no_write_witness :
    (effects_of [sampleDoc] (process_pubsub_message noOverwriteCfg [sampleDoc] sampleWorldOk
        (.jsonMsg (some "lease-sample/a.pdf") (some "bkt")) none "t")).db_writes = [] ∧
    (effects_of [sampleDoc] (process_pubsub_message noOverwriteCfg [sampleDoc] sampleWorldOk
        (.jsonMsg (some "lease-sample/a.pdf") (some "bkt")) none "t")).published = [] ∧
    (effects_of [sampleDoc] (process_pubsub_message noOverwriteCfg [sampleDoc] sampleWorldOk
        (.jsonMsg (some "lease-sample/a.pdf") (some "bkt")) none "t")).db_after = [sampleDoc] ∧
    (∀ m, sampleWorldOk.ai_response = Except.ok m →
      outcome_of (process_pubsub_message noOverwriteCfg [sampleDoc] sampleWorldOk
        (.jsonMsg (some "lease-sample/a.pdf") (some "bkt")) none "t") =
        some ("Skipping existing document: " ++ sampleDoc.id)) :=
  extractor_skip_existing_no_write noOverwriteCfg [sampleDoc] sampleWorldOk
    "lease-sample/a.pdf" "bkt" none "t" sampleDoc rfl (by decide) (by decide)
    (by decide) (by decide) rfl (by decide)

/-- C4: an inbound storage notification whose path misses the configured
filter path or lacks a pdf suffix causes no model call, no database write,
no publish, and no collection change. -/
theorem extractor_filter_blocks_effects (cfg : ExtractorConfig) (db : List FsDoc)
    (w : ExtractorWorld) (name bucket : String) (ctx : Option EventContext) (now : String)
    (hctx : clear_check ctx = Except.ok false)
    (hname : name ≠ "") (hbucket : bucket ≠ "")
    (hfail : pyStartsWith name cfg.target_path_pfx = false ∨
      pyEndsWith (pyLower name) ".pdf" = false) :
    effects_of db (process_pubsub_message cfg db w (.jsonMsg (some name) (some bucket))
      ctx now) = noEffects db := by
  rcases hfail with h | h
  · simp [process_pubsub_message, hctx, extractor_try_body, hname, hbucket, h, effects_of]
  · cases hs : pyStartsWith name cfg.target_path_pfx with
    | false =>
      simp [process_pubsub_message, hctx, extractor_try_body, hname, hbucket, hs, effects_of]
    | true =>
      simp [process_pubsub_message, hctx, extractor_try_body, hname, hbucket, hs, h, effects_of]

/-- Witness for C4: a concrete event outside the filter path. -/
theorem extractor_filter_blocks_effects_witness :
    effects_of [sampleDoc] (process_pubsub_message noOverwriteCfg [sampleDoc] sampleWorldOk
      (.jsonMsg (some "other/a.pdf") (some "bkt")) none "t") = noEffects [sampleDoc] :=
  extractor_filter_blocks_effects noOverwriteCfg [sampleDoc] sampleWorldOk
    "other/a.pdf" "bkt" none "t" rfl (by decide) (by decide) (Or.inl (by decide))

/-- C8: when the extraction response is not valid JSON, the Extractor
returns the decode-error outcome built from the decoder message and performs
no database write and no publish, leaving the collection unchanged. -/
theorem extractor_decode_error_no_write (cfg : ExtractorConfig) (db : List FsDoc)
    (w : ExtractorWorld) (name bucket : String) (ctx : Option EventContext)
    (now : String) (msg : String)
    (hctx : clear_check ctx = Except.ok false)
    (hname : name ≠ "") (hbucket : bucket ≠ "")
    (hpre : pyStartsWith name cfg.target_path_pfx = true)
    (hpdf : pyEndsWith (pyLower name) ".pdf" = true)
    (hai : w.ai_response = Except.error msg) :
    outcome_of (process_pubsub_message cfg db w (.jsonMsg (some name) (some bucket))
      ctx now) = some ("Error decoding JSON: " ++ msg ++ ".") ∧
    (effects_of db (process_pubsub_message cfg db w (.jsonMsg (some name) (some bucket))
      ctx now)).db_writes = [] ∧
    (effects_of db (process_pubsub_message cfg db w (.jsonMsg (some name) (some bucket))
      ctx now)).published = [] ∧
    (effects_of db (process_pubsub_message cfg db w (.jsonMsg (some name) (some bucket))
      ctx now)).db_after = db := by
  simp [process_pubsub_message, hctx, extractor_try_body, hname, hbucket, hpre, hpdf,
    hai, effects_of, outcome_of, noEffects]

/-- Witness for C8: a concrete qualifying event with an extraction response
that does not parse as JSON. -/
theorem extractor_decode_error_no_write_witness :
    outcome_of (process_pubsub_message noOverwriteCfg [sampleDoc]
      ⟨Except.error "Expecting value", none, none, none, "x"⟩
      (.jsonMsg (some "lease-sample/b.pdf") (some "bkt")) none "t") =
      some ("Error decoding JSON: " ++ "Expecting value" ++ ".") ∧
    (effects_of [sampleDoc] (process_pubsub_message noOverwriteCfg [sampleDoc]
      ⟨Except.error "Expecting value", none, none, none, "x"⟩
      (.jsonMsg (some "lease-sample/b.pdf") (some "bkt")) none "t")).db_writes = [] ∧
    (effects_of [sampleDoc] (process_pubsub_message noOverwriteCfg [sampleDoc]
      ⟨Except.error "Expecting value", none, none, none, "x"⟩
      (.jsonMsg (some "lease-sample/b.pdf") (some "bkt")) none "t")).published = [] ∧
    (effects_of [sampleDoc] (process_pubsub_message noOverwriteCfg [sampleDoc]
      ⟨Except.error "Expecting value", none, none, none, "x"⟩
      (.jsonMsg (some "lease-sample/b.pdf") (some "bkt")) none "t")).db_after = [sampleDoc] :=
  extractor_decode_error_no_write noOverwriteCfg [sampleDoc]
    ⟨Except.error "Expecting value", none, none, none, "x"⟩
    "lease-sample/b.pdf" "bkt" none "t" "Expecting value" rfl (by decide) (by decide)
    (by decide) (by decide) rfl

/-- C3 counterexample: the clear condition runs outside the try block, so a
context whose event type is the clear trigger but whose resource has no
labels key makes the Extractor propagate a KeyError to its trigger rather
than return an outcome. -/
theorem extractor_clear_path_raises :
    process_pubsub_message noOverwriteCfg [] sampleWorldOk sampleEvent
      (some badClearContext) "t" = Except.error "KeyError: labels" := rfl

/-- C3 (amended): provided the clear-condition evaluation does not raise and
a triggered clear path completes, the Extractor always returns normally with
an outcome value, and the Refresher returns normally on every event and
every external-world behaviour, its try/except catching every raise. -/
theorem handlers_never_raise (cfg : ExtractorConfig) (db : List FsDoc)
    (w : ExtractorWorld) (event : EventMsg) (ctx : Option EventContext) (now : String)
    (hclear : ∃ b, clear_check ctx = Except.ok b)
    (hclear2 : clear_check ctx = Except.ok true → w.clear_error = none) :
    (∃ res, process_pubsub_message cfg db w event ctx now = Except.ok res) ∧
    (∀ (rw : RefresherWorld) (bucket : String) (ev : RefrEvent),
      ∃ x, refresh_datastore_document rw bucket ev = Except.ok x) := by
  constructor
  · obtain ⟨b, hb⟩ := hclear
    cases b with
    | false =>
      rcases hbody : extractor_try_body cfg db w event now with ⟨r, eff⟩
      cases r with
      | ok s =>
        exact ⟨(s, eff), by simp [process_pubsub_message, hb, hbody]⟩
      | error e =>
        exact ⟨(some ("Error processing PDF: " ++ e ++ "."), eff),
          by simp [process_pubsub_message, hb, hbody]⟩
    | true =>
      have hce := hclear2 hb
      exact ⟨(some "Firestore Collection Cleared",
        ⟨0, [], [], (clean_up_firestore_collection db 100 (by omega)).remaining⟩),
        by simp [process_pubsub_message, hb, hce]⟩
  · intro rw bucket ev
    cases hb2 : refresher_body rw bucket ev with
    | error e => exact ⟨none, by simp [refresh_datastore_document, hb2]⟩
    | ok eff => exact ⟨some eff, by simp [refresh_datastore_document, hb2]⟩

/-- Witness for C3 (amended) at a concrete event and context. -/
theorem handlers_never_raise_witness :
    (∃ res, process_pubsub_message noOverwriteCfg [sampleDoc] sampleWorldOk
      sampleEvent none "t" = Except.ok res) ∧
    (∀ (rw : RefresherWorld) (bucket : String) (ev : RefrEvent),
      ∃ x, refresh_datastore_document rw bucket ev = Except.ok x) :=
  handlers_never_raise noOverwriteCfg [sampleDoc] sampleWorldOk sampleEvent none "t"
    ⟨false, rfl⟩ (fun _ => rfl)

/-- The bulk clear always exhausts the collection: after the last pass the
remaining collection is empty (strong induction on the collection length). -/
theorem clean_up_exhausts (n : Nat) :
    ∀ (coll : List FsDoc) (bs : Nat) (h : 0 < bs), coll.length ≤ n →
      (clean_up_firestore_collection coll bs h).remaining = [] := by
  induction n with
  | zero =>
    intro coll bs h hle
    have hc : coll = [] := List.length_eq_zero.mp (Nat.le_zero.mp hle)
    subst hc
    unfold clean_up_firestore_collection
    simp only [List.take_nil, List.length_nil, List.drop_nil]
    rw [dif_neg (by omega)]
  | succ n ih =>
    intro coll bs h hle
    unfold clean_up_firestore_collection
    split
    · next hrec =>
      simp only []
      apply ih
      simp only [List.length_take] at hrec
      simp only [List.length_drop]
      omega
    · next hrec =>
      simp only [List.length_take] at hrec
      exact List.drop_eq_nil_of_le (by omega)

/-- C9: the bulk clear terminates for every finite collection, emptying it
(first conjunct); a collection smaller than the batch size is handled in a
single pass that deletes exactly its documents, so it recurses only when a
pass deleted at least the batch size; on the empty collection it performs
exactly one pass with zero deletions. -/
theorem clean_up_terminates_one_pass (coll : List FsDoc) (hsmall : coll.length < 100) :
    (∀ c2 : List FsDoc,
      (clean_up_firestore_collection c2 100 batch_pos_100).remaining = []) ∧
    (clean_up_firestore_collection coll 100 batch_pos_100).passes = 1 ∧
    (clean_up_firestore_collection coll 100 batch_pos_100).deleted = coll.length ∧
    clean_up_firestore_collection [] 100 batch_pos_100 = ⟨[], 0, 1⟩ := by
  refine ⟨fun c2 => clean_up_exhausts c2.length c2 100 batch_pos_100 le_rfl, ?_, ?_, ?_⟩
  · unfold clean_up_firestore_collection
    rw [dif_neg (by simp only [List.length_take]; omega)]
  · unfold clean_up_firestore_collection
    rw [dif_neg (by simp only [List.length_take]; omega)]
    simp only [List.length_take]
    omega
  · unfold clean_up_firestore_collection
    rw [dif_neg (by simp)]
    simp

/-- Witness for C9 at a concrete one-document collection. -/
theorem clean_up_terminates_one_pass_witness :
    (∀ c2 : List FsDoc,
      (clean_up_firestore_collection c2 100 batch_pos_100).remaining = []) ∧
    (clean_up_firestore_collection [sampleDoc] 100 batch_pos_100).passes = 1 ∧
    (clean_up_firestore_collection [sampleDoc] 100 batch_pos_100).deleted =
      [sampleDoc].length ∧
    clean_up_firestore_collection [] 100 batch_pos_100 = ⟨[], 0, 1⟩ :=
  clean_up_terminates_one_pass [sampleDoc] (by decide)

/-- Every document the try body writes carries the same value in both
timestamp fields: the single write site sets both to the same now. -/
theorem extractor_try_body_timestamps (cfg : ExtractorConfig) (db : List FsDoc)
    (w : ExtractorWorld) (event : EventMsg) (now : String) (d : FsDoc)
    (hd : d ∈ (extractor_try_body cfg db w event now).2.db_writes) :
    d.record.create_datetime = d.record.update_datetime := by
  cases event with
  | undecodable e => simp [extractor_try_body, noEffects] at hd
  | nonJson r => simp [extractor_try_body, noEffects] at hd
  | jsonMsg nm bk =>
    simp only [extractor_try_body] at hd
    split at hd
    · simp [noEffects] at hd
    · split at hd
      · split at hd
        · split at hd
          · simp [noEffects] at hd
          · split at hd
            · simp [noEffects] at hd
            · split at hd
              · simp [noEffects] at hd
              · split at hd
                · simp at hd
                  subst hd
                  rfl
                · simp at hd
                  subst hd
                  rfl
        · simp [noEffects] at hd
      · simp [noEffects] at hd

/-- C10: every record the Extractor writes to the database has equal
create_datetime and update_datetime, on every path of the handler. -/
theorem extractor_writes_timestamps_equal (cfg : ExtractorConfig) (db : List FsDoc)
    (w : ExtractorWorld) (event : EventMsg) (ctx : Option EventContext) (now : String)
    (d : FsDoc)
    (hd : d ∈ (effects_of db (process_pubsub_message cfg db w event ctx now)).db_writes) :
    d.record.create_datetime = d.record.update_datetime := by
  unfold process_pubsub_message at hd
  cases hc : clear_check ctx with
  | error e => rw [hc] at hd; simp [effects_of, noEffects] at hd
  | ok b =>
    rw [hc] at hd
    cases b with
    | true =>
      cases hce : w.clear_error with
      | some e => rw [hce] at hd; simp [effects_of, noEffects] at hd
      | none => rw [hce] at hd; simp [effects_of, noEffects] at hd
    | false =>
      rcases hbody : extractor_try_body cfg db w event now with ⟨r, eff⟩
      rw [hbody] at hd
      have hd2 : d ∈ eff.db_writes := by
        cases r with
        | ok s => simpa [effects_of] using hd
        | error e => simpa [effects_of] using hd
      have := extractor_try_body_timestamps cfg db w event now d (by rw [hbody]; exact hd2)
      exact this

/-- Witness for C10 at a concrete successful write. -/
theorem extractor_writes_timestamps_equal_witness :
    (FsDoc.mk "doc-2" ⟨sampleMeta, "gs://bkt/lease-sample/a.pdf", "t", "t"⟩).record.create_datetime =
    (FsDoc.mk "doc-2" ⟨sampleMeta, "gs://bkt/lease-sample/a.pdf", "t", "t"⟩).record.update_datetime :=
  extractor_writes_timestamps_equal noOverwriteCfg [] sampleWorldOk sampleEvent none "t"
    (FsDoc.mk "doc-2" ⟨sampleMeta, "gs://bkt/lease-sample/a.pdf", "t", "t"⟩) (by decide)
